import Mathlib

/-!
Verification of the Indicator & Signal-Scoring Engine and the Signal
Deduplication state machine of the MT5 trading bot (`bot_web.py`).

The numeric indicator functions of `TechnicalAnalyzer` are embedded as pure
functions over `ℚ`; the return-value strings of the Python code
(trend labels, RSI bands, MACD/Bollinger classifications, pattern names,
reason strings) are embedded as inductive types, one constructor per distinct
string the source can produce.  The scorer's substring tests
(`"бычий" in trend.lower()` and friends) become constructor-set membership,
which matches them exactly on the producible strings.
-/

namespace TradingBot

/-- One OHLCV bar; volume is never read by the analysis code, so it is omitted.
Field `openPrice` embeds the Python column `Open` (`open` is a Lean keyword). -/
structure Bar where
  openPrice : ℚ
  high : ℚ
  low : ℚ
  close : ℚ
deriving DecidableEq

/-- The five trend strings returned by `analyze_trend`, plus the
insufficient-data marker string. -/
inductive TrendLabel
  | insufficient
  | strongBull
  | bull
  | strongBear
  | bear
  | sideways
deriving DecidableEq

/-- The five RSI band strings returned by `analyze_rsi`. -/
inductive RsiBand
  | oversold
  | buyLean
  | neutral
  | sellLean
  | overbought
deriving DecidableEq

/-- The three MACD strings returned by `analyze_macd`. -/
inductive MacdSig
  | bull
  | bear
  | noSignal
deriving DecidableEq

/-- The three Bollinger strings returned by `analyze_bollinger`. -/
inductive BbSig
  | upper
  | lower
  | inside
deriving DecidableEq

/-- The four candlestick pattern names produced by `detect_patterns_simple`. -/
inductive Pattern
  | hammer
  | bullEngulf
  | bearEngulf
  | doji
deriving DecidableEq

/-- The `action` field of a signal dict. -/
inductive Action
  | BUY
  | SELL
  | HOLD
deriving DecidableEq

/-- The `risk_level` field of a signal dict. -/
inductive Risk
  | LOW
  | MEDIUM
deriving DecidableEq

/-- One entry of the `reason` list of `generate_trading_signal`; each
constructor stands for one distinct reason string of the source. -/
inductive Reason
  | trendUp
  | trendDown
  | rsiOversold
  | rsiOverbought
  | macdBull
  | macdBear
  | bbLower
  | bbUpper
  | pat (p : Pattern)
  | nearSupport (level : ℚ)
  | nearResistance (level : ℚ)
deriving DecidableEq

/-- The signal dict built by `generate_trading_signal`. -/
structure Signal where
  symbol : String
  price : ℚ
  action : Action
  confidence : ℤ
  reason : List Reason
  risk_level : Risk
  sl : ℚ
  tp : ℚ
deriving DecidableEq

/-- Python `abs` on exact rationals.  (Written with `max` rather than the
`|·|` notation so that concrete witnesses evaluate inside the kernel; it
agrees with `|q|`, see `ratAbs_eq_abs`.) -/
def ratAbs (q : ℚ) : ℚ :=
  max q (-q)

theorem ratAbs_eq_abs (q : ℚ) : ratAbs q = |q| :=
  (abs_eq_max_neg).symm

/-- Last close of a bar series (`data['Close'].iloc[-1]`). -/
def lastClose (data : List Bar) : ℚ :=
  (data.map Bar.close).getLastD 0

/-- One step of the pandas `ewm(span, adjust=False)` recurrence:
`ema[t] = price[t]*k + ema[t-1]*(1-k)`. -/
def emaStep (k : ℚ) (prev x : ℚ) : ℚ :=
  x * k + prev * (1 - k)

/-- The full EMA series of `close.ewm(span=span, adjust=False).mean()`:
`ema[0] = price[0]`, then the recurrence with `k = 2/(span+1)`. -/
def emaSeries (span : ℕ) : List ℚ → List ℚ
  | [] => []
  | c :: cs => cs.scanl (emaStep ((2 : ℚ) / (span + 1))) c

/-- Final value of the EMA series (`.iloc[-1]`). -/
def emaLast (span : ℕ) (closes : List ℚ) : ℚ :=
  (emaSeries span closes).getLastD 0

/-- `ema_20.iloc[-1]` as used by `analyze_trend`. -/
def trendE20 (data : List Bar) : ℚ :=
  emaLast 20 (data.map Bar.close)

/-- `ema_50.iloc[-1]` as used by `analyze_trend`. -/
def trendE50 (data : List Bar) : ℚ :=
  emaLast 50 (data.map Bar.close)

/-- `TechnicalAnalyzer.analyze_trend`: guard `data.empty or len(data) < 20`
(empty series have length `0 < 20`, so the two tests coincide), then the
five-way classification of the latest close against EMA(20) and EMA(50),
with the branch conditions written exactly as in the source (the chained
comparison `a > b > c` of Python is `a > b and b > c`). -/
def analyze_trend (data : List Bar) : TrendLabel :=
  if data.length < 20 then TrendLabel.insufficient
  else if lastClose data > trendE20 data ∧ trendE20 data > trendE50 data then
    TrendLabel.strongBull
  else if lastClose data > trendE20 data ∧ trendE20 data > trendE50 data then
    TrendLabel.bull
  else if lastClose data < trendE20 data ∧ trendE20 data < trendE50 data then
    TrendLabel.strongBear
  else if lastClose data < trendE20 data ∧ trendE20 data < trendE50 data then
    TrendLabel.bear
  else TrendLabel.sideways

/-- `close.diff()` without its leading NaN: the list of consecutive
differences, of length `n - 1`. -/
def deltas : List ℚ → List ℚ
  | [] => []
  | [_] => []
  | a :: b :: rest => (b - a) :: deltas (b :: rest)

/-- The final value of `delta.where(delta > 0, 0).rolling(14).mean()`: mean
of the positive parts of the last 14 close-to-close differences. -/
def avgGain (closes : List ℚ) : ℚ :=
  ((((deltas closes).drop (closes.length - 15)).map (fun d => max d 0)).sum) / 14

/-- The final value of `(-delta.where(delta < 0, 0)).rolling(14).mean()`. -/
def avgLoss (closes : List ℚ) : ℚ :=
  ((((deltas closes).drop (closes.length - 15)).map (fun d => max (-d) 0)).sum) / 14

/-- The last RSI value of `analyze_rsi` (period 14): the zero-loss epsilon
substitution `loss.replace(0, 0.000001)`, then `rsi = 100 - 100/(1+rs)` with
`rs = avg_gain/avg_loss`.  Returns `none` when `len(data) < 15`.  For
`len ≥ 15` the final rolling window contains no NaN, so the `pd.isna` guard
of the source never fires there. -/
def rsiValue (closes : List ℚ) : Option ℚ :=
  if closes.length < 15 then none
  else
    some (100 - 100 /
      (1 + avgGain closes / (if avgLoss closes = 0 then 1 / 1000000 else avgLoss closes)))

/-- The band classification of the RSI value, in the source's test order
(`< 30`, then `> 70`, then `30 ≤ v ≤ 40`, then `60 ≤ v ≤ 70`, else neutral). -/
def classifyRsi (v : ℚ) : RsiBand :=
  if v < 30 then RsiBand.oversold
  else if v > 70 then RsiBand.overbought
  else if 30 ≤ v ∧ v ≤ 40 then RsiBand.buyLean
  else if 60 ≤ v ∧ v ≤ 70 then RsiBand.sellLean
  else RsiBand.neutral

/-- `TechnicalAnalyzer.analyze_rsi`: the band string (or `None`). -/
def analyze_rsi (closes : List ℚ) : Option RsiBand :=
  (rsiValue closes).map classifyRsi

/-- `TechnicalAnalyzer.analyze_macd`: MACD(12,26) line, EMA(9) signal line,
histogram, classified on the final values.  Returns `None` for `len < 35`. -/
def analyze_macd (closes : List ℚ) : Option MacdSig :=
  if closes.length < 35 then none
  else
    let macdLine := List.zipWith (fun a b => a - b) (emaSeries 12 closes) (emaSeries 26 closes)
    let m := macdLine.getLastD 0
    let s := (emaSeries 9 macdLine).getLastD 0
    if m > s ∧ m - s > 0 then some MacdSig.bull
    else if m < s ∧ m - s < 0 then some MacdSig.bear
    else some MacdSig.noSignal

/-- Mean of a list (used for SMA windows); the callers always pass windows of
the stated positive length. -/
def listMean (l : List ℚ) : ℚ :=
  l.sum / l.length

/-- `TechnicalAnalyzer.analyze_bollinger`: SMA(20) ± 2·std(20) on the last
20 closes (pandas `.std()` uses the sample variance, divisor 19), classified
against the latest close.  Since `√` leaves `ℚ`, the two band comparisons are
encoded by their exact algebraic equivalents:
`price ≥ sma + 2σ ↔ price - sma ≥ 0 ∧ (price - sma)² ≥ 4·var` and mirrored
for the lower band; this decides precisely the source's comparisons. -/
def analyze_bollinger (closes : List ℚ) (period : ℕ) : Option BbSig :=
  if closes.length < period then none
  else
    let w := closes.drop (closes.length - period)
    let sma := listMean w
    let varS := (w.map (fun x => (x - sma) ^ 2)).sum / ((period : ℚ) - 1)
    let price := closes.getLastD 0
    if 0 ≤ price - sma ∧ 4 * varS ≤ (price - sma) ^ 2 then some BbSig.upper
    else if 0 ≤ sma - price ∧ 4 * varS ≤ (sma - price) ^ 2 then some BbSig.lower
    else some BbSig.inside

/-- True ranges of the bars after the first, each against the previous close. -/
def trAux (prev : Bar) : List Bar → List ℚ
  | [] => []
  | b :: rest =>
      max (b.high - b.low) (max (ratAbs (b.high - prev.close)) (ratAbs (b.low - prev.close))) :: trAux b rest

/-- The true-range series: at index 0 the previous close is NaN, and the
row-wise `max` of pandas skips NaN, leaving `high - low` there. -/
def trueRanges : List Bar → List ℚ
  | [] => []
  | b0 :: rest => (b0.high - b0.low) :: trAux b0 rest

/-- `TechnicalAnalyzer.calculate_atr`: rolling mean of the true range over
`period` bars, final value; `0` when `len(data) < period`.  For
`len ≥ period` the final window is full, so the `isna` fallback of the
source never fires there. -/
def calculate_atr (data : List Bar) (period : ℕ) : ℚ :=
  if data.length < period then 0
  else ((trueRanges data).drop (data.length - period)).sum / period

/-- `TechnicalAnalyzer.is_hammer`:
`lower_shadow > 2*body and upper_shadow < 0.1*body`. -/
def is_hammer (openP close high low : ℚ) : Bool :=
  decide (min openP close - low > ratAbs (close - openP) * 2 ∧
    high - max openP close < ratAbs (close - openP) * (1 / 10))

/-- `TechnicalAnalyzer.is_bullish_engulfing`. -/
def is_bullish_engulfing (open1 close1 open2 close2 : ℚ) : Bool :=
  decide (close1 < open1 ∧ close2 > open2 ∧ open2 < close1 ∧ close2 > open1)

/-- `TechnicalAnalyzer.is_bearish_engulfing`. -/
def is_bearish_engulfing (open1 close1 open2 close2 : ℚ) : Bool :=
  decide (close1 > open1 ∧ close2 < open2 ∧ open2 > close1 ∧ close2 < open1)

/-- `TechnicalAnalyzer.is_doji`: `body ≤ 0.1 * (high - low)`. -/
def is_doji (openP close high low : ℚ) : Bool :=
  decide (ratAbs (close - openP) ≤ (high - low) * (1 / 10))

/-- `TechnicalAnalyzer.detect_patterns_simple`: needs at least 3 bars, then
tests hammer on the last bar, bullish-else-bearish engulfing on the last two
bars, and doji on the last bar, appending the pattern names in that order. -/
def detect_patterns_simple (data : List Bar) : List Pattern :=
  if data.length < 3 then []
  else
    let b2 := data.getLastD ⟨0, 0, 0, 0⟩
    let b1 := data.dropLast.getLastD ⟨0, 0, 0, 0⟩
    (if is_hammer b2.openPrice b2.close b2.high b2.low then [Pattern.hammer] else []) ++
    (if is_bullish_engulfing b1.openPrice b1.close b2.openPrice b2.close then [Pattern.bullEngulf]
      else if is_bearish_engulfing b1.openPrice b1.close b2.openPrice b2.close then
        [Pattern.bearEngulf]
      else []) ++
    (if is_doji b2.openPrice b2.close b2.high b2.low then [Pattern.doji] else [])

/-- The `sr_levels` dict of `find_support_resistance`. -/
structure SRLevels where
  support : List ℚ
  resistance : List ℚ
deriving DecidableEq

/-- Maximum of a list, `0` on the empty list (callers pass full windows). -/
def listMax : List ℚ → ℚ
  | [] => 0
  | x :: xs => xs.foldl max x

/-- Minimum of a list, `0` on the empty list. -/
def listMin : List ℚ → ℚ
  | [] => 0
  | x :: xs => xs.foldl min x

/-- Greatest element of a list, as an `Option` (`max(..., default=None)`). -/
def listMaxOpt : List ℚ → Option ℚ
  | [] => none
  | x :: xs =>
      match listMaxOpt xs with
      | none => some x
      | some m => some (max x m)

/-- Least element of a list, as an `Option` (`min(..., default=None)`). -/
def listMinOpt : List ℚ → Option ℚ
  | [] => none
  | x :: xs =>
      match listMinOpt xs with
      | none => some x
      | some m => some (min x m)

/-- `high.rolling(window=w).max().dropna()`: the maxima of all full windows. -/
def rollingMax (w : ℕ) (l : List ℚ) : List ℚ :=
  (List.range (l.length + 1 - w)).map (fun i => listMax ((l.drop i).take w))

/-- `low.rolling(window=w).min().dropna()`. -/
def rollingMin (w : ℕ) (l : List ℚ) : List ℚ :=
  (List.range (l.length + 1 - w)).map (fun i => listMin ((l.drop i).take w))

/-- `TechnicalAnalyzer.find_support_resistance`: rolling 20-bar extrema,
nearest support strictly below and nearest resistance strictly above the
current price; the Python truthiness test `if nearest_support` also drops a
level equal to `0`, which the final `if` reproduces.  The `unique()`
de-duplication of the source cannot change a maximum or minimum and is
therefore dropped. -/
def find_support_resistance (data : List Bar) (w : ℕ) : SRLevels :=
  if data.length < w then ⟨[], []⟩
  else
    let price := lastClose data
    let supports := rollingMin w (data.map Bar.low)
    let resistances := rollingMax w (data.map Bar.high)
    ⟨(match listMaxOpt (supports.filter (fun s => decide (s < price))) with
      | some s => if s = 0 then [] else [s]
      | none => []),
     (match listMinOpt (resistances.filter (fun r => decide (price < r))) with
      | some r => if r = 0 then [] else [r]
      | none => [])⟩

/-- Trend contribution of `generate_trading_signal` (±20): the substring test
`"бычий" in trend.lower()` holds exactly for the two bullish labels and
`"медвежий"` exactly for the two bearish ones; the sideways and
insufficient-data strings contain neither. -/
def trendScore : TrendLabel → ℤ × List Reason
  | TrendLabel.strongBull | TrendLabel.bull => (20, [Reason.trendUp])
  | TrendLabel.strongBear | TrendLabel.bear => (-20, [Reason.trendDown])
  | _ => (0, [])

/-- RSI contribution (±15): `"ПЕРЕПРОДАНО"`/`"покупка"` are the oversold and
buy-leaning strings, `"ПЕРЕКУПЛЕНО"`/`"продажа"` the overbought and
sell-leaning ones; the neutral string matches neither, `None` contributes
nothing. -/
def rsiScore : Option RsiBand → ℤ × List Reason
  | some RsiBand.oversold | some RsiBand.buyLean => (15, [Reason.rsiOversold])
  | some RsiBand.overbought | some RsiBand.sellLean => (-15, [Reason.rsiOverbought])
  | _ => (0, [])

/-- MACD contribution (±15): equality tests against the two direction
strings. -/
def macdScore : Option MacdSig → ℤ × List Reason
  | some MacdSig.bull => (15, [Reason.macdBull])
  | some MacdSig.bear => (-15, [Reason.macdBear])
  | _ => (0, [])

/-- Bollinger contribution (±10): equality tests against the two band
strings. -/
def bbScore : Option BbSig → ℤ × List Reason
  | some BbSig.lower => (10, [Reason.bbLower])
  | some BbSig.upper => (-10, [Reason.bbUpper])
  | _ => (0, [])

/-- Per-pattern points: the source's `bullish_patterns` list holds hammer and
bullish engulfing (+10 each), `bearish_patterns` holds bearish engulfing and
doji (−10 each); every producible pattern is in one of the two lists. -/
def patternPoints : Pattern → ℤ
  | Pattern.hammer => 10
  | Pattern.bullEngulf => 10
  | Pattern.bearEngulf => -10
  | Pattern.doji => -10

/-- The pattern loop of the scorer: every pattern contributes its points and
its reason string, in list order. -/
def patternsScore (ps : List Pattern) : ℤ × List Reason :=
  ((ps.map patternPoints).sum, ps.map Reason.pat)

/-- The support/resistance proximity loop: first level `s` of the list with
`s` truthy (nonzero) and `abs(price - s)/s < 0.002`, then `break`. -/
def nearLevel (price : ℚ) : List ℚ → Option ℚ
  | [] => none
  | s :: rest =>
      if s ≠ 0 ∧ ratAbs (price - s) / s < 1 / 500 then some s else nearLevel price rest

/-- Support (+15, at most once) and resistance (−15, at most once)
contributions of the scorer. -/
def srScore (price : ℚ) (sr : SRLevels) : ℤ × List Reason :=
  let sPart : ℤ × List Reason :=
    match nearLevel price sr.support with
    | some s => (15, [Reason.nearSupport s])
    | none => (0, [])
  let rPart : ℤ × List Reason :=
    match nearLevel price sr.resistance with
    | some r => (-15, [Reason.nearResistance r])
    | none => (0, [])
  (sPart.1 + rPart.1, sPart.2 ++ rPart.2)

/-- The accumulation of `confidence_points` and `reasons` over the six
sections of `generate_trading_signal`, in source order
(trend → RSI → MACD → Bollinger → patterns → support/resistance). -/
def scorePair (trend : TrendLabel) (rsi : Option RsiBand) (macd : Option MacdSig)
    (bb : Option BbSig) (patterns : List Pattern) (price : ℚ) (sr : SRLevels) :
    ℤ × List Reason :=
  let t := trendScore trend
  let r := rsiScore rsi
  let m := macdScore macd
  let b := bbScore bb
  let p := patternsScore patterns
  let s := srScore price sr
  (t.1 + r.1 + m.1 + b.1 + p.1 + s.1, t.2 ++ r.2 ++ m.2 ++ b.2 ++ p.2 ++ s.2)

/-- The final `confidence_points` total of `generate_trading_signal`. -/
def scorePoints (trend : TrendLabel) (rsi : Option RsiBand) (macd : Option MacdSig)
    (bb : Option BbSig) (patterns : List Pattern) (price : ℚ) (sr : SRLevels) : ℤ :=
  (scorePair trend rsi macd bb patterns price sr).1

/-- The final `reasons` list of `generate_trading_signal`. -/
def scoreReasons (trend : TrendLabel) (rsi : Option RsiBand) (macd : Option MacdSig)
    (bb : Option BbSig) (patterns : List Pattern) (price : ℚ) (sr : SRLevels) :
    List Reason :=
  (scorePair trend rsi macd bb patterns price sr).2

/-- Python `round(x, 5)` on the exact rationals of the model: rounding of
`x·10⁵` to the nearest integer. -/
def round5 (q : ℚ) : ℚ :=
  ((round (q * 100000) : ℤ) : ℚ) / 100000

/-- The action decision of the scorer: BUY for `points ≥ 30`, SELL for
`points ≤ −30`, else the initial `HOLD`. -/
def decideAction (pts : ℤ) : Action :=
  if 30 ≤ pts then Action.BUY
  else if pts ≤ -30 then Action.SELL
  else Action.HOLD

/-- The risk assignment of the scorer: initially MEDIUM; in the BUY branch
LOW for `points ≥ 50`, in the SELL branch LOW for `points ≤ −50`. -/
def decideRisk (pts : ℤ) : Risk :=
  if 30 ≤ pts then (if 50 ≤ pts then Risk.LOW else Risk.MEDIUM)
  else if pts ≤ -30 then (if pts ≤ -50 then Risk.LOW else Risk.MEDIUM)
  else Risk.MEDIUM

/-- Stop-loss assignment: `price ∓ 1.5·ATR` rounded to 5 decimals for
BUY/SELL, the sentinel `0` for HOLD. -/
def slOf (a : Action) (price atr : ℚ) : ℚ :=
  match a with
  | Action.BUY => round5 (price - atr * (3 / 2))
  | Action.SELL => round5 (price + atr * (3 / 2))
  | Action.HOLD => 0

/-- Take-profit assignment: `price ± 2.5·ATR` rounded to 5 decimals for
BUY/SELL, the sentinel `0` for HOLD. -/
def tpOf (a : Action) (price atr : ℚ) : ℚ :=
  match a with
  | Action.BUY => round5 (price + atr * (5 / 2))
  | Action.SELL => round5 (price - atr * (5 / 2))
  | Action.HOLD => 0

/-- The signal dict built by `generate_trading_signal` on a non-empty series:
entry price rounded to 5 decimals, clamped confidence
`min(100, max(0, 50 + points))`, action and risk from the point total, and
ATR(14)-based stops computed from the unrounded current price. -/
def scoredSignal (symbol : String) (data : List Bar) (trend : TrendLabel)
    (rsi : Option RsiBand) (macd : Option MacdSig) (bb : Option BbSig)
    (patterns : List Pattern) (sr : SRLevels) : Signal :=
  { symbol := symbol
    price := round5 (lastClose data)
    action := decideAction (scorePoints trend rsi macd bb patterns (lastClose data) sr)
    confidence := min 100 (max 0 (50 + scorePoints trend rsi macd bb patterns (lastClose data) sr))
    reason := scoreReasons trend rsi macd bb patterns (lastClose data) sr
    risk_level := decideRisk (scorePoints trend rsi macd bb patterns (lastClose data) sr)
    sl := slOf (decideAction (scorePoints trend rsi macd bb patterns (lastClose data) sr))
      (lastClose data) (calculate_atr data 14)
    tp := tpOf (decideAction (scorePoints trend rsi macd bb patterns (lastClose data) sr))
      (lastClose data) (calculate_atr data 14) }

/-- `TechnicalAnalyzer.generate_trading_signal`: `None` on an empty series,
otherwise the scored signal dict. -/
def generate_trading_signal (symbol : String) (data : List Bar) (trend : TrendLabel)
    (rsi : Option RsiBand) (macd : Option MacdSig) (bb : Option BbSig)
    (patterns : List Pattern) (sr : SRLevels) : Option Signal :=
  if data = [] then none
  else some (scoredSignal symbol data trend rsi macd bb patterns sr)

/-- The indicator-then-scorer chain of `TechnicalAnalyzer.analyze_symbol`:
trend from the H4 series, every other indicator from the H1 series, then the
scorer. -/
def analysisPipeline (symbol : String) (h1 h4 : List Bar) : Option Signal :=
  generate_trading_signal symbol h1 (analyze_trend h4)
    (analyze_rsi (h1.map Bar.close)) (analyze_macd (h1.map Bar.close))
    (analyze_bollinger (h1.map Bar.close) 20) (detect_patterns_simple h1)
    (find_support_resistance h1 20)

/-- The dedup key of `auto_analysis_loop`:
`f"{symbol}_{signal['action']}_{datetime.now().strftime('%H')}"`, embedded as
the triple (symbol, action, hour-of-day label). -/
abbrev GateKey : Type := String × Action × ℕ

/-- The `last_signals` dict, as an insertion-ordered association list; a key
is only ever inserted when absent, so first-match lookup agrees with the
dict. Timestamps are minutes. -/
abbrev GateState : Type := List (GateKey × ℕ)

/-- `strftime('%H')` of a time `t` in minutes: the hour of day. -/
def hourLabel (t : ℕ) : ℕ :=
  t / 60 % 24

/-- A candidate signal as the gate sees it: symbol, action, confidence. -/
structure Candidate where
  symbol : String
  action : Action
  confidence : ℤ
deriving DecidableEq

/-- The dedup key of a candidate evaluated at time `t`. -/
def candKey (c : Candidate) (t : ℕ) : GateKey :=
  (c.symbol, c.action, hourLabel t)

/-- First-match lookup in the gate state (dict membership / indexing). -/
def lookupKey : GateState → GateKey → Option ℕ
  | [], _ => none
  | (k0, v0) :: rest, k => if k0 = k then some v0 else lookupKey rest k

/-- One gate decision of `auto_analysis_loop` (lines 1104–1118): a candidate
with non-HOLD action and `confidence > 70` is approved iff its key is absent,
in which case the key is recorded with the current time *before* any delivery
is attempted; everything else is not emitted. Returns (approved?, new state). -/
def gateStep (st : GateState) (c : Candidate) (t : ℕ) : Bool × GateState :=
  if c.action ≠ Action.HOLD ∧ 70 < c.confidence then
    match lookupKey st (candKey c t) with
    | none => (true, (candKey c t, t) :: st)
    | some _ => (false, st)
  else (false, st)

/-- The bulk purge at the end of each tick: keep the entries younger than the
1-hour retention window (`current_time - v < timedelta(hours=1)`). -/
def gatePurge (st : GateState) (t : ℕ) : GateState :=
  st.filter (fun e => decide (t - e.2 < 60))

/-- Anything the loop does to the gate state: evaluating a candidate signal,
or the end-of-tick purge. -/
inductive GateEvent
  | candidate (c : Candidate) (t : ℕ)
  | purge (t : ℕ)
deriving DecidableEq

/-- Apply one event to the gate state. -/
def applyEvent (st : GateState) : GateEvent → GateState
  | GateEvent.candidate c t => (gateStep st c t).2
  | GateEvent.purge t => gatePurge st t

/-- Apply a sequence of events to the gate state. -/
def applyEvents (st : GateState) (es : List GateEvent) : GateState :=
  es.foldl applyEvent st

/-- One loop-body step for one approved-or-not candidate, together with the
delivery attempt: `deliveryOk` abstracts whether
`send_real_signal_with_chart` succeeds.  The key insertion happens in
`gateStep`, before the send; the send result is only used for the
`signals_sent` counter, never to modify `last_signals`.  Returns
(sent successfully?, new state). -/
def loopIteration (st : GateState) (c : Candidate) (t : ℕ) (deliveryOk : Bool) :
    Bool × GateState :=
  match gateStep st c t with
  | (approved, st2) => (approved && deliveryOk, st2)

/-- Result of `RealTradingBot.send_real_signal_with_chart`: the boolean the
coroutine returns, and how many Telegram messages it sent. -/
structure DeliveryResult where
  returned : Bool
  messagesSent : ℕ
deriving DecidableEq

/-- `RealTradingBot.send_real_signal_with_chart` (lines 906–966): bail out on
a falsy `chat_id` (`0` in Python truthiness), on a HOLD action or confidence
below 60, and—crucially—on a failed chart render (`if not chart: return
False`) *without sending anything*; otherwise attempt the single
`send_photo` call, whose failure is caught by the surrounding
`try/except` (`sendOk` abstracts that outcome). -/
def send_real_signal_with_chart (chatId : ℕ) (sig : Signal) (chart : Option Unit)
    (sendOk : Bool) : DeliveryResult :=
  if chatId = 0 then ⟨false, 0⟩
  else if sig.action = Action.HOLD ∨ sig.confidence < 60 then ⟨false, 0⟩
  else
    match chart with
    | none => ⟨false, 0⟩
    | some _ => if sendOk then ⟨true, 1⟩ else ⟨false, 0⟩

/-! Helper lemmas about the decision functions, shared by several claims. -/

theorem decideAction_eq_BUY (pts : ℤ) : decideAction pts = Action.BUY ↔ 30 ≤ pts := by
  unfold decideAction
  split_ifs <;> simp_all

theorem decideAction_eq_SELL (pts : ℤ) : decideAction pts = Action.SELL ↔ pts ≤ -30 := by
  unfold decideAction
  split_ifs <;> simp_all <;> omega

theorem decideAction_eq_HOLD (pts : ℤ) :
    decideAction pts = Action.HOLD ↔ -30 < pts ∧ pts < 30 := by
  unfold decideAction
  split_ifs <;> simp_all <;> omega

theorem decideRisk_eq_LOW (pts : ℤ) : decideRisk pts = Risk.LOW ↔ 50 ≤ pts.natAbs := by
  unfold decideRisk
  split_ifs <;> simp_all <;> omega

theorem decideRisk_eq_MEDIUM (pts : ℤ) :
    decideRisk pts = Risk.MEDIUM ↔ pts.natAbs < 50 := by
  unfold decideRisk
  split_ifs <;> simp_all <;> omega

/-- C1: for every indicator snapshot (and non-empty series), the scorer sets
`confidence = clamp(50 + points, 0, 100)` — hence always in `[0, 100]` —
action BUY iff `points ≥ 30`, SELL iff `points ≤ −30`, HOLD otherwise, and
risk LOW iff `|points| ≥ 50`, MEDIUM otherwise. -/
theorem C1_scorer_decision (symbol : String) (data : List Bar) (trend : TrendLabel)
    (rsi : Option RsiBand) (macd : Option MacdSig) (bb : Option BbSig)
    (patterns : List Pattern) (sr : SRLevels) (h : data ≠ []) :
    generate_trading_signal symbol data trend rsi macd bb patterns sr
      = some (scoredSignal symbol data trend rsi macd bb patterns sr) ∧
    (scoredSignal symbol data trend rsi macd bb patterns sr).confidence
      = min 100 (max 0 (50 + scorePoints trend rsi macd bb patterns (lastClose data) sr)) ∧
    0 ≤ (scoredSignal symbol data trend rsi macd bb patterns sr).confidence ∧
    (scoredSignal symbol data trend rsi macd bb patterns sr).confidence ≤ 100 ∧
    ((scoredSignal symbol data trend rsi macd bb patterns sr).action = Action.BUY ↔
      30 ≤ scorePoints trend rsi macd bb patterns (lastClose data) sr) ∧
    ((scoredSignal symbol data trend rsi macd bb patterns sr).action = Action.SELL ↔
      scorePoints trend rsi macd bb patterns (lastClose data) sr ≤ -30) ∧
    ((scoredSignal symbol data trend rsi macd bb patterns sr).action = Action.HOLD ↔
      (-30 < scorePoints trend rsi macd bb patterns (lastClose data) sr ∧
        scorePoints trend rsi macd bb patterns (lastClose data) sr < 30)) ∧
    ((scoredSignal symbol data trend rsi macd bb patterns sr).risk_level = Risk.LOW ↔
      50 ≤ (scorePoints trend rsi macd bb patterns (lastClose data) sr).natAbs) ∧
    ((scoredSignal symbol data trend rsi macd bb patterns sr).risk_level = Risk.MEDIUM ↔
      (scorePoints trend rsi macd bb patterns (lastClose data) sr).natAbs < 50) := by
  refine ⟨by simp [generate_trading_signal, h], rfl, ?_, ?_,
    decideAction_eq_BUY _, decideAction_eq_SELL _, decideAction_eq_HOLD _,
    decideRisk_eq_LOW _, decideRisk_eq_MEDIUM _⟩
  · show (0 : ℤ) ≤ min 100 (max 0 (50 + scorePoints trend rsi macd bb patterns (lastClose data) sr))
    omega
  · show min 100 (max 0 (50 + scorePoints trend rsi macd bb patterns (lastClose data) sr)) ≤ 100
    omega

/-- C1 witness: a concrete one-bar series with a fully neutral snapshot. -/
theorem C1_scorer_decision_witness :
    ([(⟨1, 1, 1, 1⟩ : Bar)] ≠ ([] : List Bar)) ∧
    (scoredSignal "EURUSD" [⟨1, 1, 1, 1⟩] TrendLabel.sideways none none none [] ⟨[], []⟩).confidence
      = min 100 (max 0 (50 +
          scorePoints TrendLabel.sideways none none none [] (lastClose [⟨1, 1, 1, 1⟩]) ⟨[], []⟩)) :=
  ⟨by simp,
    (C1_scorer_decision "EURUSD" [⟨1, 1, 1, 1⟩] TrendLabel.sideways none none none [] ⟨[], []⟩
      (by simp)).2.1⟩

/-- C6: the trend classifier returns the insufficient marker exactly on
series shorter than 20 bars, and on longer series exactly one of the five
labels, each characterised by the stated comparison of the latest close with
EMA(20) and EMA(50) (the plain bullish/bearish branches carry the source's
own — unsatisfiable — residual conditions). -/
theorem C6_trend_classification (data : List Bar) :
    (data.length < 20 → analyze_trend data = TrendLabel.insufficient) ∧
    (20 ≤ data.length →
      analyze_trend data ≠ TrendLabel.insufficient ∧
      (analyze_trend data = TrendLabel.strongBull ↔
        lastClose data > trendE20 data ∧ trendE20 data > trendE50 data) ∧
      (analyze_trend data = TrendLabel.bull ↔
        ((lastClose data > trendE20 data ∧ trendE20 data > trendE50 data) ∧
          ¬(lastClose data > trendE20 data ∧ trendE20 data > trendE50 data))) ∧
      (analyze_trend data = TrendLabel.strongBear ↔
        lastClose data < trendE20 data ∧ trendE20 data < trendE50 data) ∧
      (analyze_trend data = TrendLabel.bear ↔
        ((lastClose data < trendE20 data ∧ trendE20 data < trendE50 data) ∧
          ¬(lastClose data < trendE20 data ∧ trendE20 data < trendE50 data))) ∧
      (analyze_trend data = TrendLabel.sideways ↔
        (¬(lastClose data > trendE20 data ∧ trendE20 data > trendE50 data) ∧
          ¬(lastClose data < trendE20 data ∧ trendE20 data < trendE50 data)))) := by
  constructor
  · intro h
    simp [analyze_trend, h]
  · intro h
    have hn : ¬ data.length < 20 := by omega
    unfold analyze_trend
    rw [if_neg hn]
    split_ifs <;> simp_all <;> intro _ <;> linarith

/-- A 20-bar constant series used as concrete input by several witnesses. -/
def barsConst : List Bar :=
  List.replicate 20 ⟨1, 1, 1, 1⟩

/-- C6 witness: the empty series is insufficient; a 20-bar series gets a
real label. -/
theorem C6_trend_classification_witness :
    (([] : List Bar).length < 20 ∧ analyze_trend [] = TrendLabel.insufficient) ∧
    (20 ≤ barsConst.length ∧ analyze_trend barsConst ≠ TrendLabel.insufficient) :=
  ⟨⟨by decide, (C6_trend_classification []).1 (by decide)⟩,
    ⟨by decide, ((C6_trend_classification barsConst).2 (by decide)).1⟩⟩

/-- C10: on series of at least 20 bars the plain bullish and bearish branches
of `analyze_trend` are dead code — their guards repeat the chained strong
conditions already tested — so only the strong labels and sideways are
reachable. -/
theorem C10_plain_branches_unreachable (data : List Bar) (h : 20 ≤ data.length) :
    analyze_trend data ≠ TrendLabel.bull ∧
    analyze_trend data ≠ TrendLabel.bear ∧
    (analyze_trend data = TrendLabel.strongBull ∨
      analyze_trend data = TrendLabel.strongBear ∨
      analyze_trend data = TrendLabel.sideways) := by
  have hn : ¬ data.length < 20 := by omega
  unfold analyze_trend
  rw [if_neg hn]
  split_ifs <;> simp_all

/-- C10 witness: the 20-bar constant series. -/
theorem C10_plain_branches_unreachable_witness :
    20 ≤ barsConst.length ∧
    analyze_trend barsConst ≠ TrendLabel.bull ∧
    analyze_trend barsConst ≠ TrendLabel.bear :=
  ⟨by decide,
    (C10_plain_branches_unreachable barsConst (by decide)).1,
    (C10_plain_branches_unreachable barsConst (by decide)).2.1⟩

/-- C8: on a non-empty series the generated signal carries
`sl = round(price − 1.5·ATR, 5)`, `tp = round(price + 2.5·ATR, 5)` for BUY,
the sign-flipped mirror for SELL, and exactly `0` for both on HOLD. -/
theorem C8_stop_levels (symbol : String) (data : List Bar) (trend : TrendLabel)
    (rsi : Option RsiBand) (macd : Option MacdSig) (bb : Option BbSig)
    (patterns : List Pattern) (sr : SRLevels) (h : data ≠ []) :
    generate_trading_signal symbol data trend rsi macd bb patterns sr
      = some (scoredSignal symbol data trend rsi macd bb patterns sr) ∧
    ((scoredSignal symbol data trend rsi macd bb patterns sr).action = Action.BUY →
      (scoredSignal symbol data trend rsi macd bb patterns sr).sl
        = round5 (lastClose data - calculate_atr data 14 * (3 / 2)) ∧
      (scoredSignal symbol data trend rsi macd bb patterns sr).tp
        = round5 (lastClose data + calculate_atr data 14 * (5 / 2))) ∧
    ((scoredSignal symbol data trend rsi macd bb patterns sr).action = Action.SELL →
      (scoredSignal symbol data trend rsi macd bb patterns sr).sl
        = round5 (lastClose data + calculate_atr data 14 * (3 / 2)) ∧
      (scoredSignal symbol data trend rsi macd bb patterns sr).tp
        = round5 (lastClose data - calculate_atr data 14 * (5 / 2))) ∧
    ((scoredSignal symbol data trend rsi macd bb patterns sr).action = Action.HOLD →
      (scoredSignal symbol data trend rsi macd bb patterns sr).sl = 0 ∧
      (scoredSignal symbol data trend rsi macd bb patterns sr).tp = 0) := by
  refine ⟨by simp [generate_trading_signal, h], ?_, ?_, ?_⟩ <;>
    · intro ha
      simp only [scoredSignal] at ha ⊢
      rw [ha, slOf, tpOf]
      exact ⟨rfl, rfl⟩

/-- C8 witness: the one-bar neutral snapshot, whose action is HOLD, so both
stops are the zero sentinel. -/
theorem C8_stop_levels_witness :
    ([(⟨1, 1, 1, 1⟩ : Bar)] ≠ ([] : List Bar)) ∧
    (scoredSignal "EURUSD" [⟨1, 1, 1, 1⟩] TrendLabel.sideways none none none [] ⟨[], []⟩).sl = 0 ∧
    (scoredSignal "EURUSD" [⟨1, 1, 1, 1⟩] TrendLabel.sideways none none none [] ⟨[], []⟩).tp = 0 :=
  ⟨by simp,
    ((C8_stop_levels "EURUSD" [⟨1, 1, 1, 1⟩] TrendLabel.sideways none none none [] ⟨[], []⟩
      (by simp)).2.2.2 (by decide)).1,
    ((C8_stop_levels "EURUSD" [⟨1, 1, 1, 1⟩] TrendLabel.sideways none none none [] ⟨[], []⟩
      (by simp)).2.2.2 (by decide)).2⟩

/-- C7: whenever the RSI produces a value (which it does exactly on series of
at least 15 bars, thanks to the epsilon substitute for a zero average loss)
that value lies in `[0, 100]`; on shorter series it returns `None`. -/
theorem C7_rsi_bounds (closes : List ℚ) :
    (15 ≤ closes.length → ∃ v, rsiValue closes = some v ∧ 0 ≤ v ∧ v ≤ 100) ∧
    (closes.length < 15 → rsiValue closes = none ∧ analyze_rsi closes = none) := by
  constructor
  · intro h
    have hn : ¬ closes.length < 15 := by omega
    have hg : 0 ≤ avgGain closes := by
      unfold avgGain
      refine div_nonneg (List.sum_nonneg ?_) (by norm_num)
      intro x hx
      simp only [List.mem_map] at hx
      obtain ⟨d, _, rfl⟩ := hx
      exact le_max_right d 0
    have hl : 0 ≤ avgLoss closes := by
      unfold avgLoss
      refine div_nonneg (List.sum_nonneg ?_) (by norm_num)
      intro x hx
      simp only [List.mem_map] at hx
      obtain ⟨d, _, rfl⟩ := hx
      exact le_max_right (-d) 0
    have hlE : 0 < (if avgLoss closes = 0 then (1 : ℚ) / 1000000 else avgLoss closes) := by
      split_ifs with h0
      · norm_num
      · exact lt_of_le_of_ne hl (Ne.symm h0)
    have hrs : 0 ≤ avgGain closes /
        (if avgLoss closes = 0 then (1 : ℚ) / 1000000 else avgLoss closes) :=
      div_nonneg hg hlE.le
    have hden : (1 : ℚ) ≤ 1 + avgGain closes /
        (if avgLoss closes = 0 then (1 : ℚ) / 1000000 else avgLoss closes) := by
      linarith
    have hqpos : 0 < (100 : ℚ) / (1 + avgGain closes /
        (if avgLoss closes = 0 then (1 : ℚ) / 1000000 else avgLoss closes)) :=
      div_pos (by norm_num) (by linarith)
    have hqle : (100 : ℚ) / (1 + avgGain closes /
        (if avgLoss closes = 0 then (1 : ℚ) / 1000000 else avgLoss closes)) ≤ 100 :=
      div_le_self (by norm_num) hden
    refine ⟨_, by rw [rsiValue, if_neg hn], by linarith, by linarith⟩
  · intro h
    exact ⟨by simp [rsiValue, h], by simp [analyze_rsi, rsiValue, h]⟩

/-- C7 witness: a 15-bar constant series (zero average loss, exercising the
epsilon substitution) and the empty series. -/
theorem C7_rsi_bounds_witness :
    (15 ≤ (List.replicate 15 (1 : ℚ)).length ∧
      (∃ v, rsiValue (List.replicate 15 (1 : ℚ)) = some v ∧ 0 ≤ v ∧ v ≤ 100)) ∧
    (([] : List ℚ).length < 15 ∧ rsiValue [] = none) :=
  ⟨⟨by decide, (C7_rsi_bounds (List.replicate 15 1)).1 (by decide)⟩,
    ⟨by decide, ((C7_rsi_bounds []).2 (by decide)).1⟩⟩

/-! Preservation lemmas for the gate state, shared by the gate claims. -/

theorem lookupKey_filter (st : GateState) (k : GateKey) (v : ℕ) (p : GateKey × ℕ → Bool)
    (h : lookupKey st k = some v) (hp : p (k, v) = true) :
    lookupKey (st.filter p) k = some v := by
  induction st with
  | nil => simp [lookupKey] at h
  | cons e rest ih =>
    obtain ⟨k0, v0⟩ := e
    rw [lookupKey] at h
    by_cases hk : k0 = k
    · rw [if_pos hk] at h
      obtain rfl : v0 = v := Option.some.inj h
      subst hk
      rw [List.filter_cons, if_pos hp, lookupKey, if_pos rfl]
    · rw [if_neg hk] at h
      rw [List.filter_cons]
      split_ifs with hp0
      · rw [lookupKey, if_neg hk]
        exact ih h
      · exact ih h

theorem gateStep_approved (st : GateState) (c : Candidate) (t : ℕ)
    (hA : c.action ≠ Action.HOLD) (hc : 70 < c.confidence)
    (h : lookupKey st (candKey c t) = none) :
    gateStep st c t = (true, (candKey c t, t) :: st) := by
  unfold gateStep
  rw [if_pos ⟨hA, hc⟩, h]

theorem gateStep_rejected (st : GateState) (c : Candidate) (t v : ℕ)
    (h : lookupKey st (candKey c t) = some v) :
    (gateStep st c t).1 = false := by
  unfold gateStep
  split_ifs with hg
  · rw [h]
  · rfl

theorem lookupKey_gateStep (st : GateState) (c : Candidate) (t : ℕ) (k : GateKey) (v : ℕ)
    (h : lookupKey st k = some v) :
    lookupKey (gateStep st c t).2 k = some v := by
  unfold gateStep
  split_ifs with hg
  · cases hl : lookupKey st (candKey c t) with
    | none =>
      have hne : candKey c t ≠ k := by
        intro e
        rw [e, h] at hl
        cases hl
      simp only [hl]
      rw [lookupKey, if_neg hne]
      exact h
    | some w => simpa [hl] using h
  · simpa using h

theorem lookupKey_applyEvents (es : List GateEvent) (st : GateState) (k : GateKey) (v : ℕ)
    (h : lookupKey st k = some v)
    (hp : ∀ t, GateEvent.purge t ∈ es → t - v < 60) :
    lookupKey (applyEvents st es) k = some v := by
  induction es generalizing st with
  | nil => simpa [applyEvents] using h
  | cons e rest ih =>
    have hstep : applyEvents st (e :: rest) = applyEvents (applyEvent st e) rest := rfl
    rw [hstep]
    cases e with
    | candidate c t =>
      exact ih _ (lookupKey_gateStep st c t k v h)
        (fun t2 ht2 => hp t2 (List.mem_cons_of_mem _ ht2))
    | purge t =>
      have hkeep : (fun e : GateKey × ℕ => decide (t - e.2 < 60)) (k, v) = true := by
        simp only [decide_eq_true_eq]
        exact hp t (List.mem_cons_self _ _)
      exact ih _ (lookupKey_filter st k v _ h hkeep)
        (fun t2 ht2 => hp t2 (List.mem_cons_of_mem _ ht2))

/-- C2: the hour-bucketed dedup gate of the auto-analysis loop.  (a) Two
above-threshold non-HOLD candidates for the same symbol and action inside
the same clock hour: the first is approved, and the second is rejected no
matter what other candidate evaluations and end-of-tick purges happen in
between inside that hour.  (b) Candidates in two different hour buckets are
both approved.  (c) After the one-hour retention window has expired and the
purge has run, a repeat candidate for the same key is approved again. -/
theorem C2_signal_gate (st0 : GateState) (sym : String) (a : Action) (c1 c2 : ℤ)
    (ta1 ta2 : ℕ) (es : List GateEvent) (tb1 tb2 : ℕ) (tc1 tc2 tc3 : ℕ) :
    (a ≠ Action.HOLD → 70 < c1 → 70 < c2 → ta1 / 60 = ta2 / 60 →
      lookupKey st0 (sym, a, hourLabel ta1) = none →
      (∀ t, GateEvent.purge t ∈ es → ta1 ≤ t ∧ t ≤ ta2) →
      (gateStep st0 ⟨sym, a, c1⟩ ta1).1 = true ∧
      (gateStep (applyEvents (gateStep st0 ⟨sym, a, c1⟩ ta1).2 es) ⟨sym, a, c2⟩ ta2).1
        = false) ∧
    (a ≠ Action.HOLD → 70 < c1 → 70 < c2 → hourLabel tb1 ≠ hourLabel tb2 →
      lookupKey st0 (sym, a, hourLabel tb1) = none →
      lookupKey st0 (sym, a, hourLabel tb2) = none →
      (gateStep st0 ⟨sym, a, c1⟩ tb1).1 = true ∧
      (gateStep (gateStep st0 ⟨sym, a, c1⟩ tb1).2 ⟨sym, a, c2⟩ tb2).1 = true) ∧
    (a ≠ Action.HOLD → 70 < c1 → 70 < c2 → tc1 + 60 ≤ tc2 → hourLabel tc3 = hourLabel tc1 →
      (gateStep ([] : GateState) ⟨sym, a, c1⟩ tc1).1 = true ∧
      (gateStep (gatePurge (gateStep ([] : GateState) ⟨sym, a, c1⟩ tc1).2 tc2)
        ⟨sym, a, c2⟩ tc3).1 = true) := by
  refine ⟨?_, ?_, ?_⟩
  · intro hA h1 h2 hhr habs hp
    have hfirst : gateStep st0 ⟨sym, a, c1⟩ ta1
        = (true, (candKey ⟨sym, a, c1⟩ ta1, ta1) :: st0) :=
      gateStep_approved st0 ⟨sym, a, c1⟩ ta1 hA h1 habs
    refine ⟨by rw [hfirst], ?_⟩
    have hmem : lookupKey (gateStep st0 ⟨sym, a, c1⟩ ta1).2 (candKey ⟨sym, a, c1⟩ ta1)
        = some ta1 := by
      rw [hfirst, lookupKey, if_pos rfl]
    have hsurv : lookupKey (applyEvents (gateStep st0 ⟨sym, a, c1⟩ ta1).2 es)
        (candKey ⟨sym, a, c1⟩ ta1) = some ta1 := by
      refine lookupKey_applyEvents es _ _ _ hmem ?_
      intro t ht
      obtain ⟨hle, hge⟩ := hp t ht
      omega
    have hkey2 : candKey (⟨sym, a, c2⟩ : Candidate) ta2 = candKey ⟨sym, a, c1⟩ ta1 := by
      unfold candKey hourLabel
      rw [hhr]
    refine gateStep_rejected _ _ _ ta1 ?_
    rw [hkey2]
    exact hsurv
  · intro hA h1 h2 hhr habs1 habs2
    have hfirst : gateStep st0 ⟨sym, a, c1⟩ tb1
        = (true, (candKey ⟨sym, a, c1⟩ tb1, tb1) :: st0) :=
      gateStep_approved st0 ⟨sym, a, c1⟩ tb1 hA h1 habs1
    refine ⟨by rw [hfirst], ?_⟩
    have hne : candKey (⟨sym, a, c1⟩ : Candidate) tb1 ≠ candKey ⟨sym, a, c2⟩ tb2 := by
      intro e
      exact hhr (congrArg (fun k : GateKey => k.2.2) e)
    have hlook : lookupKey (gateStep st0 ⟨sym, a, c1⟩ tb1).2 (candKey ⟨sym, a, c2⟩ tb2)
        = none := by
      rw [hfirst, lookupKey, if_neg hne]
      exact habs2
    rw [gateStep_approved _ _ _ hA h2 hlook]
  · intro hA h1 h2 hret hlbl
    have hfirst : gateStep ([] : GateState) ⟨sym, a, c1⟩ tc1
        = (true, [(candKey ⟨sym, a, c1⟩ tc1, tc1)]) :=
      gateStep_approved [] ⟨sym, a, c1⟩ tc1 hA h1 rfl
    refine ⟨by rw [hfirst], ?_⟩
    have hpurged : gatePurge (gateStep ([] : GateState) ⟨sym, a, c1⟩ tc1).2 tc2
        = ([] : GateState) := by
      rw [hfirst]
      unfold gatePurge
      rw [List.filter_cons]
      have hexp : ¬ (tc2 - tc1 < 60) := by omega
      simp [hexp]
    rw [hpurged, gateStep_approved [] ⟨sym, a, c2⟩ tc3 hA h2 rfl]

/-- C2 witness: one concrete run of each of the three scenarios. -/
theorem C2_signal_gate_witness :
    ((gateStep ([] : GateState) ⟨"EURUSD", Action.BUY, 80⟩ 10).1 = true ∧
      (gateStep (applyEvents (gateStep ([] : GateState) ⟨"EURUSD", Action.BUY, 80⟩ 10).2
        [GateEvent.purge 20]) ⟨"EURUSD", Action.BUY, 80⟩ 30).1 = false) ∧
    ((gateStep ([] : GateState) ⟨"EURUSD", Action.BUY, 80⟩ 10).1 = true ∧
      (gateStep (gateStep ([] : GateState) ⟨"EURUSD", Action.BUY, 80⟩ 10).2
        ⟨"EURUSD", Action.BUY, 80⟩ 70).1 = true) ∧
    ((gateStep ([] : GateState) ⟨"EURUSD", Action.BUY, 80⟩ 10).1 = true ∧
      (gateStep (gatePurge (gateStep ([] : GateState) ⟨"EURUSD", Action.BUY, 80⟩ 10).2 70)
        ⟨"EURUSD", Action.BUY, 80⟩ 1450).1 = true) := by
  have h := C2_signal_gate [] "EURUSD" Action.BUY 80 80 10 30 [GateEvent.purge 20] 10 70 10 70 1450
  refine ⟨h.1 (by decide) (by decide) (by decide) (by decide) rfl ?_,
    h.2.1 (by decide) (by decide) (by decide) (by decide) rfl rfl,
    h.2.2 (by decide) (by decide) (by decide) (by decide) (by decide)⟩
  intro t ht
  have : t = 20 := by
    simp only [List.mem_singleton] at ht
    injection ht
  omega

/-- C5: a delivery failure never rolls back the gate: the state after a loop
iteration is the same whether the send succeeds or fails, the approved key is
recorded with its timestamp before delivery, and a later same-key candidate
in the same hour is still rejected even though the earlier send failed. -/
theorem C5_no_delivery_rollback (st : GateState) (c c2 : Candidate) (t t2 : ℕ)
    (ok1 ok2 : Bool) (hA : c.action ≠ Action.HOLD) (hc : 70 < c.confidence)
    (habs : lookupKey st (candKey c t) = none)
    (hsym : c2.symbol = c.symbol) (hact : c2.action = c.action)
    (hhr : hourLabel t2 = hourLabel t) :
    (loopIteration st c t ok1).2 = (loopIteration st c t ok2).2 ∧
    lookupKey (loopIteration st c t false).2 (candKey c t) = some t ∧
    (gateStep (loopIteration st c t false).2 c2 t2).1 = false := by
  have hfirst : gateStep st c t = (true, (candKey c t, t) :: st) := by
    unfold gateStep
    rw [if_pos ⟨hA, hc⟩, habs]
  have hstate : ∀ ok : Bool, (loopIteration st c t ok).2 = (candKey c t, t) :: st := by
    intro ok
    unfold loopIteration
    rw [hfirst]
  refine ⟨by rw [hstate ok1, hstate ok2], ?_, ?_⟩
  · rw [hstate false, lookupKey, if_pos rfl]
  · have hkey : candKey c2 t2 = candKey c t := by
      unfold candKey
      rw [hsym, hact, hhr]
    unfold gateStep
    split_ifs with hg
    · rw [hkey, hstate false, lookupKey, if_pos rfl]
    · rfl

/-- C5 witness: a failed send (`ok = false`) leaves the key recorded and a
repeat candidate 20 minutes later rejected. -/
theorem C5_no_delivery_rollback_witness :
    (loopIteration ([] : GateState) ⟨"XAUUSD", Action.SELL, 90⟩ 100 true).2
      = (loopIteration ([] : GateState) ⟨"XAUUSD", Action.SELL, 90⟩ 100 false).2 ∧
    lookupKey (loopIteration ([] : GateState) ⟨"XAUUSD", Action.SELL, 90⟩ 100 false).2
      (candKey ⟨"XAUUSD", Action.SELL, 90⟩ 100) = some 100 ∧
    (gateStep (loopIteration ([] : GateState) ⟨"XAUUSD", Action.SELL, 90⟩ 100 false).2
      ⟨"XAUUSD", Action.SELL, 95⟩ 110).1 = false := by
  have h := C5_no_delivery_rollback [] ⟨"XAUUSD", Action.SELL, 90⟩ ⟨"XAUUSD", Action.SELL, 95⟩
    100 110 true false (by decide) (by decide) rfl rfl rfl (by decide)
  exact ⟨h.1, h.2.1, h.2.2⟩

/-- C3 counterexample: the trend indicator reports insufficient data (here on
the empty series), yet the scorer — fed bullish values from the remaining
indicators — emits a BUY with confidence 100, not a HOLD with zero
confidence and not "no signal". -/
theorem C3_counterexample :
    analyze_trend ([] : List Bar) = TrendLabel.insufficient ∧
    (generate_trading_signal "EURUSD" [⟨1, 1, 1, 1⟩] (analyze_trend [])
        (some RsiBand.oversold) (some MacdSig.bull) none [] ⟨[], []⟩).map Signal.action
      = some Action.BUY ∧
    (generate_trading_signal "EURUSD" [⟨1, 1, 1, 1⟩] (analyze_trend [])
        (some RsiBand.oversold) (some MacdSig.bull) none [] ⟨[], []⟩).map Signal.confidence
      = some 80 := by
  refine ⟨rfl, ?_, ?_⟩ <;> decide

/-- C3 as amended: an insufficient-data trend does not suppress the signal;
it merely contributes zero points and no reason, so the scorer behaves
exactly as for a sideways trend — the other indicators are still scored and
may produce BUY/SELL — and the scorer returns no signal only when the price
series itself is empty. -/
theorem C3_insufficient_trend_amended (symbol : String) (data : List Bar)
    (rsi : Option RsiBand) (macd : Option MacdSig) (bb : Option BbSig)
    (patterns : List Pattern) (sr : SRLevels) :
    generate_trading_signal symbol data TrendLabel.insufficient rsi macd bb patterns sr
      = generate_trading_signal symbol data TrendLabel.sideways rsi macd bb patterns sr ∧
    (generate_trading_signal symbol data TrendLabel.insufficient rsi macd bb patterns sr
      = none ↔ data = []) := by
  constructor
  · rfl
  · constructor
    · intro h
      by_contra hne
      rw [generate_trading_signal, if_neg hne] at h
      cases h
    · intro h
      rw [generate_trading_signal, if_pos h]

/-- C4 counterexample: an approval-worthy signal (BUY, confidence 80), a live
chat and a working channel — but the chart render failed (`chart = None`),
and `send_real_signal_with_chart` returns `False` having sent zero messages:
no text-only fallback happens. -/
theorem C4_counterexample :
    (⟨"EURUSD", 1, Action.BUY, 80, [], Risk.LOW, 1, 1⟩ : Signal).action ≠ Action.HOLD ∧
    (60 : ℤ) ≤ (⟨"EURUSD", 1, Action.BUY, 80, [], Risk.LOW, 1, 1⟩ : Signal).confidence ∧
    send_real_signal_with_chart 1 ⟨"EURUSD", 1, Action.BUY, 80, [], Risk.LOW, 1, 1⟩ none true
      = ⟨false, 0⟩ := by
  refine ⟨by decide, by decide, ?_⟩
  decide

/-- C4 as amended: when chart rendering fails, `send_real_signal_with_chart`
returns `False` and sends nothing at all — the signal is silently dropped;
there is no text-only fallback delivery. -/
theorem C4_render_failure_amended (chatId : ℕ) (sig : Signal) (sendOk : Bool) :
    send_real_signal_with_chart chatId sig none sendOk = ⟨false, 0⟩ := by
  unfold send_real_signal_with_chart
  split_ifs <;> rfl

/-- C9: the indicator + scorer pipeline is a pure function — two runs on
identical inputs give identical signals, field by field (action, confidence,
risk tier, stops, reasons). -/
theorem C9_pipeline_deterministic (sym1 sym2 : String) (h1a h1b h4a h4b : List Bar)
    (hs : sym1 = sym2) (e1 : h1a = h1b) (e4 : h4a = h4b) :
    analysisPipeline sym1 h1a h4a = analysisPipeline sym2 h1b h4b ∧
    (analysisPipeline sym1 h1a h4a).map Signal.action
      = (analysisPipeline sym2 h1b h4b).map Signal.action ∧
    (analysisPipeline sym1 h1a h4a).map Signal.confidence
      = (analysisPipeline sym2 h1b h4b).map Signal.confidence ∧
    (analysisPipeline sym1 h1a h4a).map Signal.risk_level
      = (analysisPipeline sym2 h1b h4b).map Signal.risk_level ∧
    (analysisPipeline sym1 h1a h4a).map Signal.sl
      = (analysisPipeline sym2 h1b h4b).map Signal.sl ∧
    (analysisPipeline sym1 h1a h4a).map Signal.tp
      = (analysisPipeline sym2 h1b h4b).map Signal.tp ∧
    (analysisPipeline sym1 h1a h4a).map Signal.reason
      = (analysisPipeline sym2 h1b h4b).map Signal.reason := by
  subst hs e1 e4
  exact ⟨rfl, rfl, rfl, rfl, rfl, rfl, rfl⟩

/-- C9 witness: two runs on the same concrete one-bar series. -/
theorem C9_pipeline_deterministic_witness :
    analysisPipeline "EURUSD" [⟨1, 1, 1, 1⟩] [⟨1, 1, 1, 1⟩]
      = analysisPipeline "EURUSD" [⟨1, 1, 1, 1⟩] [⟨1, 1, 1, 1⟩] ∧
    (analysisPipeline "EURUSD" [⟨1, 1, 1, 1⟩] [⟨1, 1, 1, 1⟩]).map Signal.action
      = (analysisPipeline "EURUSD" [⟨1, 1, 1, 1⟩] [⟨1, 1, 1, 1⟩]).map Signal.action :=
  ⟨(C9_pipeline_deterministic "EURUSD" "EURUSD" [⟨1, 1, 1, 1⟩] [⟨1, 1, 1, 1⟩]
      [⟨1, 1, 1, 1⟩] [⟨1, 1, 1, 1⟩] rfl rfl rfl).1,
    (C9_pipeline_deterministic "EURUSD" "EURUSD" [⟨1, 1, 1, 1⟩] [⟨1, 1, 1, 1⟩]
      [⟨1, 1, 1, 1⟩] [⟨1, 1, 1, 1⟩] rfl rfl rfl).2.1⟩

end TradingBot
